import Mathlib

/-!
Verification development for the USB Mass Storage (Bulk-Only) protocol core
of `dfusim` (`dfusim/usbms.py`).

The embedding follows the source file closely:
* ctypes structures become Lean structures whose byte-level layout is given
  by an `encode` function (all fields of a `BigEndianStructure` are
  big-endian, all fields of a `LittleEndianStructure` little-endian,
  `_pack_ = 1`, so fields sit at consecutive offsets with no padding);
* machine bytes are `Nat` reduced `% 256` where the source stores them;
* Python exceptions used as control flow (`MassStorageError` and its
  subclasses) become an `Except` result;
* the endpoint side effects of the transport (`write` on the IN endpoint,
  `halt` on both endpoints) are returned explicitly as a list of IN-endpoint
  writes plus two halt flags.
-/

deriving instance DecidableEq for Except

namespace Dfusim

/-! ### Byte-level primitives -/

/-- Big-endian encoding of a 16-bit value, as ctypes lays out a 2-byte field
of a `BigEndianStructure`. -/
def encBE16 (v : Nat) : List Nat := [v / 256 % 256, v % 256]

/-- Big-endian encoding of a 32-bit value. -/
def encBE32 (v : Nat) : List Nat :=
  [v / 16777216 % 256, v / 65536 % 256, v / 256 % 256, v % 256]

/-- Little-endian encoding of a 16-bit value, as in a `LittleEndianStructure`. -/
def encLE16 (v : Nat) : List Nat := [v % 256, v / 256 % 256]

/-- Little-endian encoding of a 32-bit value. -/
def encLE32 (v : Nat) : List Nat :=
  [v % 256, v / 256 % 256, v / 65536 % 256, v / 16777216 % 256]

/-- Little-endian decoding of (the first four bytes of) a byte list. -/
def decLE32 (bs : List Nat) : Nat :=
  bs.getD 0 0 + bs.getD 1 0 * 256 + bs.getD 2 0 * 65536 + bs.getD 3 0 * 16777216

/-- Big-endian decoding of a 2-byte field. -/
def decBE16 (bs : List Nat) : Nat := bs.getD 0 0 * 256 + bs.getD 1 0

/-- Big-endian decoding of a 4-byte field. -/
def decBE32 (bs : List Nat) : Nat :=
  bs.getD 0 0 * 16777216 + bs.getD 1 0 * 65536 + bs.getD 2 0 * 256 + bs.getD 3 0

/-- Fix a byte-array field to an exact width: ctypes `u8 * n` arrays are
zero-initialized and `memmove` copies the given bytes over the front. -/
def padZeros (n : Nat) (l : List Nat) : List Nat :=
  (l ++ List.replicate (n - l.length) 0).take n

/-! ### Constants from `usbms.py` -/

def USBMS_CBW_MAGIC : Nat := 0x43425355
def USBMS_CSW_MAGIC : Nat := 0x53425355

def USBMS_CBW_DIR_MASK : Nat := 0x80
def USBMS_CBW_DIR_IN : Nat := 0x80

def USBMS_CSW_STATUS_GOOD : Nat := 0x00
def USBMS_CSW_STATUS_BAD : Nat := 0x01
def USBMS_CSW_STATUS_PHASE_ERROR : Nat := 0x02

def SCSI_CMD_TEST_UNIT_READY : Nat := 0x00
def SCSI_CMD_REQUEST_SENSE : Nat := 0x03
def SCSI_CMD_INQUIRY : Nat := 0x12
def SCSI_CMD_MODE_SENSE6 : Nat := 0x1a
def SCSI_CMD_START_STOP_UNIT : Nat := 0x1b
def SCSI_CMD_PREVENT_ALLOW_MEDIUM_REMOVAL : Nat := 0x1e
def SCSI_CMD_READ_CAPACITY10 : Nat := 0x25
def SCSI_CMD_READ10 : Nat := 0x28
def SCSI_CMD_WRITE10 : Nat := 0x2a
def SCSI_CMD_VERIFY10 : Nat := 0x2f
def SCSI_CMD_MODE_SENSE10 : Nat := 0x5a

def SCSI_REQUEST_SENSE_F0_ERROR_CODE_MASK : Nat := 0x7f
def SCSI_ERROR_CODE_CURRENT : Nat := 0x70
def SCSI_REQUEST_SENSE_F2_SENSE_KEY_MASK : Nat := 0x0f

def SCSI_SENSE_KEY_NO_SENSE : Nat := 0x0
def SCSI_SENSE_KEY_NOT_READY : Nat := 0x2
def SCSI_SENSE_KEY_ILLEGAL_REQUEST : Nat := 0x5

def SCSI_ASC_NONE : Nat := 0x00
def SCSI_ASC_INVALID_FIELD_IN_CDB : Nat := 0x2400

def SCSI_INQUIRY_HEADER_F1_RMB : Nat := 0x80
def SCSI_INQUIRY_HEADER_VERSION_SPC2 : Nat := 0x4
def SCSI_INQUIRY_HEADER_FORMAT_SPC2 : Nat := 0x02
def SCSI_INQUIRY_PERIF_QUALIFIER_LOADED : Nat := 0
def SCSI_INQUIRY_PERIF_TYPE_DIRECT : Nat := 0x00

def SCSI_VERIFY_F1_BYTCHK : Nat := 0x02

/-! ### SCSI parameter blocks (`BigEndianStructure`, `_pack_ = 1`)

Only the structures with multi-byte fields get a record plus an `encode`;
the all-`u8` parameter blocks (`SCSIParametersVoid6`, `...RequestSense`,
`...ModeSense6`, `...StartStopUnit`, `...PreventAllowMediumRemoval`) are
read field-by-field from the raw CDB bytes in `onCommand` below, at the
offsets their declarations give them. -/

/-- `SCSIParametersInquiry`: flags, page_code, allocation_length (16-bit),
control. -/
structure SCSIParametersInquiry where
  flags : Nat
  page_code : Nat
  allocation_length : Nat
  control : Nat
deriving DecidableEq

def SCSIParametersInquiry.encode (p : SCSIParametersInquiry) : List Nat :=
  [p.flags % 256, p.page_code % 256] ++ encBE16 p.allocation_length ++ [p.control % 256]

/-- `SCSIParametersReadCapacity10`: flags1, lba (32-bit), 2 reserved bytes,
flags2, control. -/
structure SCSIParametersReadCapacity10 where
  flags1 : Nat
  lba : Nat
  flags2 : Nat
  control : Nat
deriving DecidableEq

def SCSIParametersReadCapacity10.encode (p : SCSIParametersReadCapacity10) : List Nat :=
  [p.flags1 % 256] ++ encBE32 p.lba ++ [0, 0, p.flags2 % 256, p.control % 256]

/-- `SCSIParametersIO10` (shared by Read(10) and Write(10)): flags,
lba (32-bit), group_number, transfer_length (16-bit), control. -/
structure SCSIParametersIO10 where
  flags : Nat
  lba : Nat
  group_number : Nat
  transfer_length : Nat
  control : Nat
deriving DecidableEq

def SCSIParametersIO10.encode (p : SCSIParametersIO10) : List Nat :=
  [p.flags % 256] ++ encBE32 p.lba ++ [p.group_number % 256] ++
    encBE16 p.transfer_length ++ [p.control % 256]

/-- `SCSIParametersVerify10`: flags1, lba (32-bit), flags2,
verification_length (16-bit), control. -/
structure SCSIParametersVerify10 where
  flags1 : Nat
  lba : Nat
  flags2 : Nat
  verification_length : Nat
  control : Nat
deriving DecidableEq

def SCSIParametersVerify10.encode (p : SCSIParametersVerify10) : List Nat :=
  [p.flags1 % 256] ++ encBE32 p.lba ++ [p.flags2 % 256] ++
    encBE16 p.verification_length ++ [p.control % 256]

/-- `SCSIParametersModeSense10`: flags, page, 4 reserved bytes,
allocation_length (16-bit), control. -/
structure SCSIParametersModeSense10 where
  flags : Nat
  page : Nat
  allocation_length : Nat
  control : Nat
deriving DecidableEq

def SCSIParametersModeSense10.encode (p : SCSIParametersModeSense10) : List Nat :=
  [p.flags % 256, p.page % 256, 0, 0, 0, 0] ++ encBE16 p.allocation_length ++ [p.control % 256]

/-! ### SCSI response structures -/

/-- `SCSIRequestSenseExt`. -/
structure SCSIRequestSenseExt where
  command_specific_information : Nat
  asc_ascq : Nat
  field_replaceable_unit_code : Nat
  sense_key_specific_0 : Nat
  sense_key_specific_1 : Nat
  sense_key_specific_2 : Nat
deriving DecidableEq

def SCSIRequestSenseExt.encode (e : SCSIRequestSenseExt) : List Nat :=
  encBE32 e.command_specific_information ++ encBE16 e.asc_ascq ++
    [e.field_replaceable_unit_code % 256, e.sense_key_specific_0 % 256,
     e.sense_key_specific_1 % 256, e.sense_key_specific_2 % 256]

/-- `ctypes.sizeof(SCSIRequestSenseExt)` = 4 + 2 + 1 + 1 + 1 + 1. -/
def sizeofSCSIRequestSenseExt : Nat := 10

/-- `SCSIRequestSenseHeader`: field_0, one obsolete byte, field_2,
information (32-bit), additional_sense_length. -/
structure SCSIRequestSenseHeader where
  field_0 : Nat
  obsolete : Nat
  field_2 : Nat
  information : Nat
  additional_sense_length : Nat
deriving DecidableEq

def SCSIRequestSenseHeader.encode (h : SCSIRequestSenseHeader) : List Nat :=
  [h.field_0 % 256, h.obsolete % 256, h.field_2 % 256] ++ encBE32 h.information ++
    [h.additional_sense_length % 256]

/-- `SCSIResponseRequestSense` = header + ext (18 bytes total). -/
structure SCSIResponseRequestSense where
  header : SCSIRequestSenseHeader
  ext : SCSIRequestSenseExt
deriving DecidableEq

def SCSIResponseRequestSense.encode (r : SCSIResponseRequestSense) : List Nat :=
  r.header.encode ++ r.ext.encode

/-- `SCSIResponseRequestSense.simple(sense_key, asc_ascq)`: the structure is
zero-initialized, then `additional_sense_length`, the error-code bits of
`field_0` (via the `error_code` setter) and the sense-key bits of `field_2`
(via the `sense_key` setter) and `ext.asc_ascq` are assigned. -/
def SCSIResponseRequestSense.simple (sense_key asc_ascq : Nat) : SCSIResponseRequestSense :=
  { header :=
      { field_0 := SCSI_ERROR_CODE_CURRENT &&& SCSI_REQUEST_SENSE_F0_ERROR_CODE_MASK
        obsolete := 0
        field_2 := sense_key &&& SCSI_REQUEST_SENSE_F2_SENSE_KEY_MASK
        information := 0
        additional_sense_length := sizeofSCSIRequestSenseExt }
    ext :=
      { command_specific_information := 0
        asc_ascq := asc_ascq
        field_replaceable_unit_code := 0
        sense_key_specific_0 := 0
        sense_key_specific_1 := 0
        sense_key_specific_2 := 0 } }

/-- `SCSIResponseInquiryHeader`. -/
structure SCSIResponseInquiryHeader where
  peripheral_type : Nat
  field_1 : Nat
  version : Nat
  field_3 : Nat
  additional_length : Nat
deriving DecidableEq

def SCSIResponseInquiryHeader.encode (h : SCSIResponseInquiryHeader) : List Nat :=
  [h.peripheral_type % 256, h.field_1 % 256, h.version % 256, h.field_3 % 256,
   h.additional_length % 256]

/-- `SCSIResponseInquiryFeatures`: field_0, flags (16-bit), vendor_id
(8 bytes), product_id (16 bytes), product_revision (4 bytes). -/
structure SCSIResponseInquiryFeatures where
  field_0 : Nat
  flags : Nat
  vendor_id : List Nat
  product_id : List Nat
  product_revision : List Nat
deriving DecidableEq

def SCSIResponseInquiryFeatures.encode (f : SCSIResponseInquiryFeatures) : List Nat :=
  [f.field_0 % 256] ++ encBE16 f.flags ++ padZeros 8 f.vendor_id ++
    padZeros 16 f.product_id ++ padZeros 4 f.product_revision

/-- `ctypes.sizeof(SCSIResponseInquiryFeatures)` = 1 + 2 + 8 + 16 + 4. -/
def sizeofSCSIResponseInquiryFeatures : Nat := 31

/-- `SCSIResponseInquiry` = header + features. -/
structure SCSIResponseInquiry where
  header : SCSIResponseInquiryHeader
  features : SCSIResponseInquiryFeatures
deriving DecidableEq

def SCSIResponseInquiry.encode (r : SCSIResponseInquiry) : List Nat :=
  r.header.encode ++ r.features.encode

/-- `ctypes.sizeof(SCSIResponseInquiry)` = 5 + 31. -/
def sizeofSCSIResponseInquiry : Nat := 36

/-- Python exceptions that are not `MassStorageError` and escape to a generic
handler. -/
inductive PyError
  | valueError
deriving DecidableEq

/-- `SCSIResponseInquiry.simple(...)`: checks the string sizes against the
array fields, zero-initializes the structure, fills the header and
`memmove`s the strings into the zero-filled arrays. -/
def SCSIResponseInquiry.simple (peripheral_type : Nat) (is_removable : Bool)
    (vendor product revision : List Nat) : Except PyError SCSIResponseInquiry :=
  if 8 < vendor.length then .error .valueError
  else if 16 < product.length then .error .valueError
  else if 4 < revision.length then .error .valueError
  else .ok
    { header :=
        { peripheral_type := peripheral_type
          field_1 := if is_removable then SCSI_INQUIRY_HEADER_F1_RMB else 0
          version := SCSI_INQUIRY_HEADER_VERSION_SPC2
          field_3 := SCSI_INQUIRY_HEADER_FORMAT_SPC2
          additional_length := sizeofSCSIResponseInquiryFeatures }
      features :=
        { field_0 := 0
          flags := 0
          vendor_id := padZeros 8 vendor
          product_id := padZeros 16 product
          product_revision := padZeros 4 revision } }

/-- `SCSIResponseModeSense6Header` (four 1-byte fields). -/
structure SCSIResponseModeSense6Header where
  mode_data_length : Nat
  medium_type : Nat
  device_specific_params : Nat
  block_descriptor_length : Nat
deriving DecidableEq

def SCSIResponseModeSense6Header.encode (h : SCSIResponseModeSense6Header) : List Nat :=
  [h.mode_data_length % 256, h.medium_type % 256, h.device_specific_params % 256,
   h.block_descriptor_length % 256]

/-- `ctypes.sizeof(SCSIResponseModeSense6Header)` = 4; the
`mode_data_length` field itself is 1 byte. -/
def sizeofSCSIResponseModeSense6Header : Nat := 4

/-- `SCSIResponseModeSense10Header`: mode_data_length (16-bit), medium_type,
device_specific_params, flags, one reserved byte, block_descriptor_length
(16-bit). Defined in the source but never built by `onCommand`. -/
structure SCSIResponseModeSense10Header where
  mode_data_length : Nat
  medium_type : Nat
  device_specific_params : Nat
  flags : Nat
  block_descriptor_length : Nat
deriving DecidableEq

def SCSIResponseModeSense10Header.encode (h : SCSIResponseModeSense10Header) : List Nat :=
  encBE16 h.mode_data_length ++
    [h.medium_type % 256, h.device_specific_params % 256, h.flags % 256, 0] ++
    encBE16 h.block_descriptor_length

/-! ### The SCSI command buffer and its parser table -/

/-- `SCSICommandBuffer`: one opcode byte plus a fixed 15-byte parameter
buffer. -/
structure SCSICommandBuffer where
  command : Nat
  parameters : List Nat
deriving DecidableEq

/-- The parameter-block classes registered in `SCSICommandBuffer._PARSERS`.
`SCSIParametersTestUnitReady` is an alias of `SCSIParametersVoid6`, and
Read(10)/Write(10) share `SCSIParametersIO10`, so both appear once here. -/
inductive SCSIParser
  | void6
  | requestSense
  | inquiry
  | modeSense6
  | startStopUnit
  | preventAllowMediumRemoval
  | readCapacity10
  | io10
  | verify10
  | modeSense10
deriving DecidableEq

/-- The `_PARSERS` table of `SCSICommandBuffer`, in source order. -/
def SCSI_PARSERS : List (Nat × SCSIParser) :=
  [(SCSI_CMD_TEST_UNIT_READY, .void6),
   (SCSI_CMD_REQUEST_SENSE, .requestSense),
   (SCSI_CMD_INQUIRY, .inquiry),
   (SCSI_CMD_MODE_SENSE6, .modeSense6),
   (SCSI_CMD_START_STOP_UNIT, .startStopUnit),
   (SCSI_CMD_PREVENT_ALLOW_MEDIUM_REMOVAL, .preventAllowMediumRemoval),
   (SCSI_CMD_READ_CAPACITY10, .readCapacity10),
   (SCSI_CMD_READ10, .io10),
   (SCSI_CMD_WRITE10, .io10),
   (SCSI_CMD_VERIFY10, .verify10),
   (SCSI_CMD_MODE_SENSE10, .modeSense10)]

/-- `ctypes.sizeof` of each registered parameter-block structure. -/
def sizeofParams : SCSIParser → Nat
  | .void6 => 5
  | .requestSense => 5
  | .inquiry => 5
  | .modeSense6 => 5
  | .startStopUnit => 5
  | .preventAllowMediumRemoval => 5
  | .readCapacity10 => 9
  | .io10 => 9
  | .verify10 => 9
  | .modeSense10 => 9

/-- `SCSICommandBuffer.parseable`: the opcode is in `_PARSERS`. -/
def SCSICommandBuffer.parseable (cb : SCSICommandBuffer) : Bool :=
  (SCSI_PARSERS.lookup cb.command).isSome

/-- `SCSICommandBuffer.cdb_size`: the byte-range length class of the opcode
(the `_cdb_size_override` escape hatch of the property setter is never used
by the transport and is not modeled). -/
def SCSICommandBuffer.cdb_size (cb : SCSICommandBuffer) : Nat :=
  if cb.command ≤ 0x1f then 6
  else if 0x20 ≤ cb.command ∧ cb.command ≤ 0x5f then 10
  else if 0x80 ≤ cb.command ∧ cb.command ≤ 0x9f then 16
  else if 0xa0 ≤ cb.command ∧ cb.command ≤ 0xbf then 12
  else 0

/-! ### CBW and CSW (`LittleEndianStructure`, `_pack_ = 1`) -/

/-- `CBW`, the 31-byte Command Block Wrapper. -/
structure CBW where
  dCBWSignature : Nat
  dCBWTag : Nat
  dCBWDataTransferLength : Nat
  bmCBWFlags : Nat
  bCBWLUN : Nat
  bCBWCBLength : Nat
  CBWCB : SCSICommandBuffer
deriving DecidableEq

def CBW.encode (c : CBW) : List Nat :=
  encLE32 c.dCBWSignature ++ encLE32 c.dCBWTag ++ encLE32 c.dCBWDataTransferLength ++
    [c.bmCBWFlags % 256, c.bCBWLUN % 256, c.bCBWCBLength % 256, c.CBWCB.command % 256] ++
    padZeros 15 c.CBWCB.parameters

/-- `CBW.from_buffer`: decode the little-endian record from raw endpoint
bytes (the caller checks the 31-byte minimum size separately, because ctypes
raises `ValueError` on a short buffer). -/
def CBW.fromBytes (bs : List Nat) : CBW :=
  { dCBWSignature := decLE32 (bs.take 4)
    dCBWTag := decLE32 ((bs.drop 4).take 4)
    dCBWDataTransferLength := decLE32 ((bs.drop 8).take 4)
    bmCBWFlags := bs.getD 12 0
    bCBWLUN := bs.getD 13 0
    bCBWCBLength := bs.getD 14 0
    CBWCB := { command := bs.getD 15 0, parameters := (bs.drop 16).take 15 } }

/-- `ctypes.sizeof(CBW)` = 4 + 4 + 4 + 1 + 1 + 1 + 16. -/
def sizeofCBW : Nat := 31

/-- `CSW`, the 13-byte Command Status Wrapper. -/
structure CSW where
  dCSWSignature : Nat
  dCSWTag : Nat
  dCSWDataResidue : Nat
  bCSWStatus : Nat
deriving DecidableEq

/-- `CSW.simple(tag, status=USBMS_CSW_STATUS_GOOD, data_residue=0)` (the
defaults are spelled out at every call site below). -/
def CSW.simple (tag status data_residue : Nat) : CSW :=
  { dCSWSignature := USBMS_CSW_MAGIC
    dCSWTag := tag
    dCSWDataResidue := data_residue
    bCSWStatus := status }

def CSW.encode (c : CSW) : List Nat :=
  encLE32 c.dCSWSignature ++ encLE32 c.dCSWTag ++ encLE32 c.dCSWDataResidue ++
    [c.bCSWStatus % 256]

/-- Decode a 13-byte CSW record. -/
def CSW.fromBytes : List Nat → CSW
  | [b0, b1, b2, b3, b4, b5, b6, b7, b8, b9, b10, b11, b12] =>
    { dCSWSignature := decLE32 [b0, b1, b2, b3]
      dCSWTag := decLE32 [b4, b5, b6, b7]
      dCSWDataResidue := decLE32 [b8, b9, b10, b11]
      bCSWStatus := b12 }
  | _ => { dCSWSignature := 0, dCSWTag := 0, dCSWDataResidue := 0, bCSWStatus := 0 }

/-! ### The sense/error model -/

/-- `MassStorageError`: a CSW status code plus an optional sense payload. -/
structure MassStorageError where
  csw_status : Nat
  sense : Option SCSIResponseRequestSense
deriving DecidableEq

/-- `raise MassStorageIllegalRequestError(details)`: its constructor itself
raises `MassStorageError(USBMS_CSW_STATUS_BAD, simple(ILLEGAL_REQUEST,
details))`, so this is the error value that actually propagates. -/
def massStorageIllegalRequestError (details : Nat) : MassStorageError :=
  { csw_status := USBMS_CSW_STATUS_BAD
    sense := some (SCSIResponseRequestSense.simple SCSI_SENSE_KEY_ILLEGAL_REQUEST details) }

/-- `MassStoragePhaseError()`: phase-error status, no sense payload. -/
def massStoragePhaseError : MassStorageError :=
  { csw_status := USBMS_CSW_STATUS_PHASE_ERROR, sense := none }

/-! ### The logical unit -/

/-- `MassStorageLogicalUnit`: the only instance state is the pending sense
slot set in `__init__` (`self.sense = None`). -/
structure MassStorageLogicalUnit where
  sense : Option SCSIResponseRequestSense
deriving DecidableEq

/-- Default `onReadCapacity`: zero LBAs of 512 bytes. -/
def MassStorageLogicalUnit.onReadCapacity : Nat × Nat := (0, 512)

/-- Default `onRead`: `b'\x00' * length * 512`. -/
def MassStorageLogicalUnit.onRead (_lba length : Nat) : List Nat :=
  List.replicate (length * 512) 0

/-- The vendor string `b'PyFFS'`. -/
def pyffsVendor : List Nat := [0x50, 0x79, 0x46, 0x46, 0x53]

/-- The product string `b'USBMS'`. -/
def usbmsProduct : List Nat := [0x55, 0x53, 0x42, 0x4d, 0x53]

/-- The revision string `b'0000'`. -/
def revision0000 : List Nat := [0x30, 0x30, 0x30, 0x30]

/-- Default `onInquiry(request_size)`: the full fixed response when the
allocation length covers it, else IllegalRequest / Invalid Field in CDB.
The `ValueError` branch of `SCSIResponseInquiry.simple` cannot fire for
these fixed strings; were it to escape `onCommand`, `_processCBW` would
downgrade it to a phase error with cleared sense, which is what the error
arm returns. -/
def onInquiry (request_size : Nat) : Except MassStorageError (List Nat) :=
  if sizeofSCSIResponseInquiry ≤ request_size then
    match SCSIResponseInquiry.simple
        (SCSI_INQUIRY_PERIF_QUALIFIER_LOADED ||| SCSI_INQUIRY_PERIF_TYPE_DIRECT)
        true pyffsVendor usbmsProduct revision0000 with
    | .ok r => .ok r.encode
    | .error _ => .error massStoragePhaseError
  else .error (massStorageIllegalRequestError SCSI_ASC_INVALID_FIELD_IN_CDB)

/-- `MassStorageLogicalUnit.onCommand(cbw, data)`.

The Python method first checks `parseable()` and raises IllegalRequest when
the opcode is not in `_PARSERS`; `cast()` then looks the same table up
again, so a single `lookup` models both steps. It then compares
`ctypes.sizeof(params)` with `cbw.bCBWCBLength - 1` (Python integer
arithmetic, hence the `Int` comparison) and finally dispatches on the
`isinstance` chain over the cast parameter block. The chain has no branch
for `SCSIParametersModeSense10`, so that parser falls through to the final
`raise MassStorageIllegalRequestError()`, as does an `SCSIParametersIO10`
cast whose opcode is neither Read(10) nor Write(10).

A successful command returns `none` (no data) or `some bytes` (the response
payload, already serialized as the endpoint write would serialize it). -/
def onCommand (lu : MassStorageLogicalUnit) (cbw : CBW) (data : Option (List Nat)) :
    Except MassStorageError (Option (List Nat)) :=
  match SCSI_PARSERS.lookup cbw.CBWCB.command with
  | none => .error (massStorageIllegalRequestError SCSI_ASC_NONE)
  | some parser =>
    if (sizeofParams parser : Int) ≠ (cbw.bCBWCBLength : Int) - 1 then
      .error (massStorageIllegalRequestError SCSI_ASC_NONE)
    else
      let p := cbw.CBWCB.parameters
      match parser with
      | .void6 =>
        -- TEST UNIT READY calls `onTestUnitReady` (default: plain return),
        -- then the branch returns no data.
        .ok none
      | .requestSense =>
        match lu.sense with
        | some s => .ok (some s.encode)
        | none =>
          .ok (some (SCSIResponseRequestSense.simple SCSI_SENSE_KEY_NO_SENSE SCSI_ASC_NONE).encode)
      | .modeSense6 =>
        .ok (some (SCSIResponseModeSense6Header.mk
          (sizeofSCSIResponseModeSense6Header - 1) 0 0 0).encode)
      | .inquiry =>
        (onInquiry (decBE16 ((p.drop 2).take 2))).map some
      | .startStopUnit => .ok none
      | .preventAllowMediumRemoval => .ok none
      | .readCapacity10 =>
        if p.getD 7 0 = 0 then
          .ok (some (encBE32 MassStorageLogicalUnit.onReadCapacity.1 ++
                     encBE32 MassStorageLogicalUnit.onReadCapacity.2))
        else .error (massStorageIllegalRequestError SCSI_ASC_INVALID_FIELD_IN_CDB)
      | .io10 =>
        if cbw.CBWCB.command = SCSI_CMD_READ10 then
          .ok (some (MassStorageLogicalUnit.onRead
            (decBE32 ((p.drop 1).take 4)) (decBE16 ((p.drop 6).take 2))))
        else if cbw.CBWCB.command = SCSI_CMD_WRITE10 then
          match data with
          | none => .error massStoragePhaseError
          | some _ => .ok none   -- `onWrite(lba, data)`: default no-op
        else .error (massStorageIllegalRequestError SCSI_ASC_NONE)
      | .verify10 =>
        if data = none ∧ p.getD 0 0 &&& SCSI_VERIFY_F1_BYTCHK ≠ 0 then
          .error (massStorageIllegalRequestError SCSI_ASC_INVALID_FIELD_IN_CDB)
        else .ok none   -- `onVerify(lba, ...)`: default no-op
      | .modeSense10 => .error (massStorageIllegalRequestError SCSI_ASC_NONE)

/-! ### The bulk-only transport -/

/-- A write issued on the bulk IN endpoint: either a data payload or a CSW
record. -/
inductive INWrite
  | dataWrite (bytes : List Nat)
  | cswWrite (c : CSW)
deriving DecidableEq

/-- The observable endpoint effects of handling one OUT-endpoint packet. -/
structure Emitted where
  writes : List INWrite
  haltIN : Bool
  haltOUT : Bool
deriving DecidableEq

/-- Halt both bulk endpoints and write nothing. -/
def haltBoth : Emitted := { writes := [], haltIN := true, haltOUT := true }

/-- `MassStorageFunction._processCBW(cbw, data)`.

Returns `none` when an exception escapes the method: the only such path is
an out-of-range `bCBWLUN`, whose `IndexError` is caught by the generic
`except` arm but re-raised by that arm itself when it indexes
`self._logical_units[cbw.bCBWLUN]` again. On a `MassStorageError` the
target logical unit's sense slot is overwritten with the error's sense
before the status CSW is written; on success the sense slot is untouched. -/
def processCBW (units : List MassStorageLogicalUnit) (cbw : CBW)
    (data : Option (List Nat)) :
    Option (List MassStorageLogicalUnit × List INWrite) :=
  match units.get? cbw.bCBWLUN with
  | none => none
  | some lu =>
    match onCommand lu cbw data with
    | .ok (some rd) =>
      some (units, [.dataWrite rd, .cswWrite (CSW.simple cbw.dCBWTag USBMS_CSW_STATUS_GOOD 0)])
    | .ok none =>
      some (units, [.cswWrite (CSW.simple cbw.dCBWTag USBMS_CSW_STATUS_GOOD 0)])
    | .error err =>
      some (units.set cbw.bCBWLUN { sense := err.sense },
            [.cswWrite (CSW.simple cbw.dCBWTag err.csw_status 0)])

/-- The per-instance session state of `MassStorageFunction`. -/
structure MassStorageFunctionState where
  receiving_length : Nat
  received_data : List Nat
  current_cbw : Option CBW
  logical_units : List MassStorageLogicalUnit
deriving DecidableEq

/-- `MassStorageFunction.__init__`: refuses an empty logical-unit sequence
with `ValueError`, otherwise starts idle (`_receiving_length = 0`, empty
accumulator, no current CBW) owning the given units. -/
def mkMassStorageFunction (logical_units : List MassStorageLogicalUnit) :
    Except PyError MassStorageFunctionState :=
  if logical_units.length = 0 then .error .valueError
  else .ok
    { receiving_length := 0
      received_data := []
      current_cbw := none
      logical_units := logical_units }

/-- `MassStorageFunction.getMaxLUN`: `len(self._logical_units) - 1` as a
Python integer. -/
def getMaxLUN (st : MassStorageFunctionState) : Int :=
  (st.logical_units.length : Int) - 1

/-- `MassStorageFunction._onOutEndpointComplete(data, status)`.

Mirrors the statement order of the source: a nonzero status halts both
endpoints (and raises `IOError`, leaving the state untouched); in the idle
state the packet is decoded as a CBW (a packet shorter than the 31-byte CBW
makes `from_buffer` raise, and the outer `except` halts both endpoints), a
signature mismatch halts both endpoints, a zero transfer length or an IN
direction flag dispatches immediately, and anything else starts a data
phase; in the receiving state the packet is appended to the accumulator and
the stored CBW is dispatched once the accumulated length reaches the
expected length exactly. An exception escaping `_processCBW` is caught by
the outer `except` and halts both endpoints. -/
def onOutEndpointComplete (st : MassStorageFunctionState) (data : List Nat)
    (status : Int) : MassStorageFunctionState × Emitted :=
  if status ≠ 0 then (st, haltBoth)
  else if st.receiving_length = 0 then
    if data.length < sizeofCBW then (st, haltBoth)
    else
      let cbw := CBW.fromBytes data
      if cbw.dCBWSignature ≠ USBMS_CBW_MAGIC then (st, haltBoth)
      else if cbw.dCBWDataTransferLength = 0 ∨
          cbw.bmCBWFlags &&& USBMS_CBW_DIR_MASK = USBMS_CBW_DIR_IN then
        match processCBW st.logical_units cbw none with
        | some (units, ws) =>
          ({ st with logical_units := units }, { writes := ws, haltIN := false, haltOUT := false })
        | none => (st, haltBoth)
      else
        ({ st with
            receiving_length := cbw.dCBWDataTransferLength
            received_data := []
            current_cbw := some cbw },
         { writes := [], haltIN := false, haltOUT := false })
  else
    let rd := st.received_data ++ data
    if rd.length = st.receiving_length then
      match st.current_cbw with
      | none =>
        -- `assert self._current_cbw is not None` fails; the outer `except`
        -- halts both endpoints (the accumulator was already extended).
        ({ st with received_data := rd }, haltBoth)
      | some cbw =>
        match processCBW st.logical_units cbw (some rd) with
        | some (units, ws) =>
          ({ st with receiving_length := 0, received_data := rd, logical_units := units },
           { writes := ws, haltIN := false, haltOUT := false })
        | none =>
          ({ st with receiving_length := 0, received_data := rd }, haltBoth)
    else
      ({ st with received_data := rd }, { writes := [], haltIN := false, haltOUT := false })

/-! ### Concrete fixtures used by the theorems below -/

/-- A freshly constructed logical unit (`__init__` sets `sense = None`). -/
def luEmpty : MassStorageLogicalUnit := { sense := none }

/-- The synthesized response Request Sense returns when no sense is stored. -/
def noSenseResponse : SCSIResponseRequestSense :=
  SCSIResponseRequestSense.simple SCSI_SENSE_KEY_NO_SENSE SCSI_ASC_NONE

/-- A stored sense left by an earlier IllegalRequest / Invalid Field error. -/
def senseInvalidField : SCSIResponseRequestSense :=
  SCSIResponseRequestSense.simple SCSI_SENSE_KEY_ILLEGAL_REQUEST SCSI_ASC_INVALID_FIELD_IN_CDB

/-- A logical unit holding `senseInvalidField` in its pending-sense slot. -/
def luWithSense : MassStorageLogicalUnit := { sense := some senseInvalidField }

/-- A Request Sense CBW (opcode 0x03, CDB length 6, tag 7, no data phase). -/
def cbwRequestSense : CBW :=
  { dCBWSignature := USBMS_CBW_MAGIC, dCBWTag := 7, dCBWDataTransferLength := 0
    bmCBWFlags := 0x80, bCBWLUN := 0, bCBWCBLength := 6
    CBWCB := { command := SCSI_CMD_REQUEST_SENSE, parameters := List.replicate 15 0 } }

/-- A Mode Sense(6) CBW (opcode 0x1a, CDB length 6). -/
def cbwModeSense6 : CBW :=
  { dCBWSignature := USBMS_CBW_MAGIC, dCBWTag := 0, dCBWDataTransferLength := 0
    bmCBWFlags := 0x80, bCBWLUN := 0, bCBWCBLength := 6
    CBWCB := { command := SCSI_CMD_MODE_SENSE6, parameters := List.replicate 15 0 } }

/-- A Mode Sense(10) CBW (opcode 0x5a, CDB length 10, matching the 9-byte
`SCSIParametersModeSense10` plus the opcode byte). -/
def cbwModeSense10 : CBW :=
  { dCBWSignature := USBMS_CBW_MAGIC, dCBWTag := 0, dCBWDataTransferLength := 0
    bmCBWFlags := 0x80, bCBWLUN := 0, bCBWCBLength := 10
    CBWCB := { command := SCSI_CMD_MODE_SENSE10, parameters := List.replicate 15 0 } }

/-- An Inquiry CBW with allocation_length = 36 (big-endian bytes 0, 36 at
parameter offsets 2 and 3). -/
def cbwInquiry36 : CBW :=
  { dCBWSignature := USBMS_CBW_MAGIC, dCBWTag := 0, dCBWDataTransferLength := 36
    bmCBWFlags := 0x80, bCBWLUN := 0, bCBWCBLength := 6
    CBWCB := { command := SCSI_CMD_INQUIRY, parameters := [0, 0, 0, 36] ++ List.replicate 11 0 } }

/-- A CBW for opcode 0x08 (READ(6)), which is not in `_PARSERS` although its
byte-range length class is 6. -/
def cbwRead6 : CBW :=
  { dCBWSignature := USBMS_CBW_MAGIC, dCBWTag := 0, dCBWDataTransferLength := 0
    bmCBWFlags := 0x80, bCBWLUN := 0, bCBWCBLength := 7
    CBWCB := { command := 0x08, parameters := List.replicate 15 0 } }

/-- A Test Unit Ready CBW whose declared CDB length (10) does not match the
5-byte `SCSIParametersVoid6` structure plus the opcode byte. -/
def cbwTestUnitReadyBadLength : CBW :=
  { dCBWSignature := USBMS_CBW_MAGIC, dCBWTag := 0, dCBWDataTransferLength := 0
    bmCBWFlags := 0, bCBWLUN := 0, bCBWCBLength := 10
    CBWCB := { command := SCSI_CMD_TEST_UNIT_READY, parameters := List.replicate 15 0 } }

/-- A fresh single-unit function state, as `__init__`/`reset` leave it. -/
def stFresh : MassStorageFunctionState :=
  { receiving_length := 0, received_data := [], current_cbw := none, logical_units := [luEmpty] }

/-- The 31 raw OUT-endpoint bytes of `cbwRequestSense` with tag 0
(little-endian signature `55 53 42 43`). -/
def cbwBytesRequestSense : List Nat :=
  [0x55, 0x53, 0x42, 0x43, 0, 0, 0, 0, 0, 0, 0, 0, 0x80, 0, 6, 3] ++ List.replicate 15 0

/-- The 31 raw OUT-endpoint bytes of a Test Unit Ready CBW with tag 1 and
zero data-transfer length. -/
def cbwBytesTestUnitReady : List Nat :=
  [0x55, 0x53, 0x42, 0x43, 1, 0, 0, 0, 0, 0, 0, 0, 0, 0, 6, 0] ++ List.replicate 15 0

/-- 31 raw OUT-endpoint bytes whose signature field decodes to `0xdeadbeef`
instead of `USBMS_CBW_MAGIC`. -/
def cbwBytesBadSignature : List Nat :=
  [0xef, 0xbe, 0xad, 0xde] ++ List.replicate 27 0

/-- Recognize the CSW write among the IN-endpoint writes. -/
def isCSWWrite : INWrite → Bool
  | .cswWrite _ => true
  | .dataWrite _ => false

/-- One command cycle emitted exactly one CSW, as the final IN write, and
halted nothing. -/
def exactlyOneTrailingCSW (em : Emitted) : Prop :=
  em.haltIN = false ∧ em.haltOUT = false ∧
  em.writes.countP isCSWWrite = 1 ∧
  ∃ c, em.writes.getLast? = some (INWrite.cswWrite c)

/-! ### Helper lemmas -/

/-- Whenever the addressed LUN is in range, `_processCBW` succeeds and its
IN-endpoint writes are exactly one CSW, written last. -/
theorem processCBW_one_trailing_csw (units : List MassStorageLogicalUnit) (cbw : CBW)
    (d : Option (List Nat)) (lu : MassStorageLogicalUnit)
    (hlu : units.get? cbw.bCBWLUN = some lu) :
    ∃ units2 ws, processCBW units cbw d = some (units2, ws) ∧
      ws.countP isCSWWrite = 1 ∧ ∃ c, ws.getLast? = some (INWrite.cswWrite c) := by
  rcases hoc : onCommand lu cbw d with err | od
  · refine ⟨units.set cbw.bCBWLUN { sense := err.sense },
      [.cswWrite (CSW.simple cbw.dCBWTag err.csw_status 0)], ?_, ?_,
      ⟨CSW.simple cbw.dCBWTag err.csw_status 0, rfl⟩⟩
    · simp only [processCBW, hlu, hoc]
    · simp [List.countP_cons, isCSWWrite]
  · rcases od with _ | rd
    · refine ⟨units, [.cswWrite (CSW.simple cbw.dCBWTag USBMS_CSW_STATUS_GOOD 0)], ?_, ?_,
        ⟨CSW.simple cbw.dCBWTag USBMS_CSW_STATUS_GOOD 0, rfl⟩⟩
      · simp only [processCBW, hlu, hoc]
      · simp [List.countP_cons, isCSWWrite]
    · refine ⟨units, [.dataWrite rd, .cswWrite (CSW.simple cbw.dCBWTag USBMS_CSW_STATUS_GOOD 0)],
        ?_, ?_, ⟨CSW.simple cbw.dCBWTag USBMS_CSW_STATUS_GOOD 0, rfl⟩⟩
      · simp only [processCBW, hlu, hoc]
      · simp [List.countP_cons, isCSWWrite]

/-! ### Claims -/

/-- Claim C1 (corrected), counterexample to the claim as stated: with a
stored sense on the logical unit, a Request Sense cycle returns the stored
sense and leaves the unit state (and hence the stored sense) unchanged, so
the subsequent Request Sense with no intervening error again returns the
stored sense, whose bytes differ from the synthesized No Sense response.
The original claim says the second read returns No Sense. -/
theorem C1_sense_not_consumed :
    processCBW [luWithSense] cbwRequestSense none =
      some ([luWithSense],
        [INWrite.dataWrite senseInvalidField.encode,
         INWrite.cswWrite (CSW.simple 7 USBMS_CSW_STATUS_GOOD 0)]) ∧
    senseInvalidField.encode ≠ noSenseResponse.encode := by
  constructor
  · decide
  · decide

/-- Claim C1 (amended): Request Sense returns the stored sense when
present, else the synthesized No Sense response, and never consumes it:
the logical-unit list returned by the command cycle is the input list
unchanged, so a subsequent Request Sense returns the same response. -/
theorem C1_request_sense (units : List MassStorageLogicalUnit) (cbw : CBW)
    (d : Option (List Nat)) (lu : MassStorageLogicalUnit)
    (hcmd : cbw.CBWCB.command = SCSI_CMD_REQUEST_SENSE)
    (hlen : cbw.bCBWCBLength = 6)
    (hlu : units.get? cbw.bCBWLUN = some lu) :
    processCBW units cbw d =
      some (units,
        [INWrite.dataWrite ((lu.sense.getD noSenseResponse).encode),
         INWrite.cswWrite (CSW.simple cbw.dCBWTag USBMS_CSW_STATUS_GOOD 0)]) := by
  have hresp : onCommand lu cbw d = .ok (some ((lu.sense.getD noSenseResponse).encode)) := by
    unfold onCommand
    rw [hcmd]
    have hlook : SCSI_PARSERS.lookup SCSI_CMD_REQUEST_SENSE = some .requestSense := by decide
    rw [hlook]
    simp only [hlen]
    rw [if_neg (by decide)]
    rcases lu.sense with _ | s <;> simp [noSenseResponse, Option.getD]
  simp only [processCBW, hlu, hresp]

/-- Claim C1 witness: the amended theorem applied to the concrete stored
sense fixture. -/
theorem C1_request_sense_witness :
    processCBW [luWithSense] cbwRequestSense none =
      some ([luWithSense],
        [INWrite.dataWrite ((luWithSense.sense.getD noSenseResponse).encode),
         INWrite.cswWrite (CSW.simple cbwRequestSense.dCBWTag USBMS_CSW_STATUS_GOOD 0)]) :=
  C1_request_sense [luWithSense] cbwRequestSense none luWithSense rfl rfl (by decide)

/-- Claim C2: evaluating `onCommand` at Mode Sense(6) and Mode Sense(10)
commands whose declared CDB length matches their parameter structures.
Mode Sense(6) returns the header-only response `[3, 0, 0, 0]` (three header
bytes follow the length byte, zero block descriptors, zero mode-page
bytes); Mode Sense(10) instead raises IllegalRequest because the
`isinstance` dispatch chain has no `SCSIParametersModeSense10` branch even
though the opcode is registered in `_PARSERS` and
`SCSIResponseModeSense10Header` exists unused — the failing input of the
code bug. -/
theorem C2_mode_sense_eval :
    onCommand luEmpty cbwModeSense6 none = .ok (some [3, 0, 0, 0]) ∧
    onCommand luEmpty cbwModeSense10 none =
      .error (massStorageIllegalRequestError SCSI_ASC_NONE) := by
  constructor
  · decide
  · decide

/-- Claim C3 (corrected), counterexample to the claim as stated: a valid
Request Sense CBW with zero data-transfer length makes the transport write
the 18-byte sense payload on the IN endpoint before the CSW, so an IN data
payload is emitted even though `dCBWDataTransferLength = 0`. -/
theorem C3_zero_length_payload :
    (onOutEndpointComplete stFresh cbwBytesRequestSense 0).2.writes =
      [INWrite.dataWrite noSenseResponse.encode,
       INWrite.cswWrite (CSW.simple 0 USBMS_CSW_STATUS_GOOD 0)] ∧
    INWrite.dataWrite noSenseResponse.encode ∈
      (onOutEndpointComplete stFresh cbwBytesRequestSense 0).2.writes := by
  constructor
  · decide
  · decide

/-- Claim C3 (amended): for every valid CBW (correct signature, in-range
LUN) with zero data-transfer length arriving in the idle state, the
transport halts nothing and writes exactly one CSW on the IN endpoint, as
the final IN write; a data payload may precede it when the command handler
returns response data. -/
theorem C3_zero_transfer (st : MassStorageFunctionState) (bytes : List Nat)
    (hidle : st.receiving_length = 0)
    (hlen : sizeofCBW ≤ bytes.length)
    (hsig : (CBW.fromBytes bytes).dCBWSignature = USBMS_CBW_MAGIC)
    (hdtl : (CBW.fromBytes bytes).dCBWDataTransferLength = 0)
    (hlun : (CBW.fromBytes bytes).bCBWLUN < st.logical_units.length) :
    exactlyOneTrailingCSW (onOutEndpointComplete st bytes 0).2 := by
  have hget := List.get?_eq_get hlun
  obtain ⟨units2, ws, hp, hcount, c, hlast⟩ :=
    processCBW_one_trailing_csw st.logical_units (CBW.fromBytes bytes) none _ hget
  unfold onOutEndpointComplete
  rw [if_neg (by norm_num), if_pos hidle, if_neg (Nat.not_lt.mpr hlen)]
  simp only
  rw [if_neg (by simp [hsig]), if_pos (Or.inl hdtl), hp]
  exact ⟨rfl, rfl, hcount, c, hlast⟩

/-- Claim C3 witness: the amended theorem at a concrete Test Unit Ready
CBW with zero data-transfer length on a fresh single-unit function. -/
theorem C3_zero_transfer_witness :
    exactlyOneTrailingCSW (onOutEndpointComplete stFresh cbwBytesTestUnitReady 0).2 :=
  C3_zero_transfer stFresh cbwBytesTestUnitReady rfl (by decide) (by decide) (by decide)
    (by decide)

/-- Claim C4 (corrected), counterexample to the claim as stated: the full
Inquiry response of the default logical unit is 36 bytes
(`ctypes.sizeof(SCSIResponseInquiry)` = 5 + 31), not 40. -/
theorem C4_inquiry_size :
    (onInquiry 36).map List.length = .ok 36 ∧ (onInquiry 36).map List.length ≠ .ok 40 := by
  constructor
  · decide
  · decide

/-- Claim C4 (amended): an Inquiry with allocation_length = 36 on the
default logical unit returns the 36-byte fixed structure — peripheral type
Direct-Access with the loaded qualifier, removable bit set, vendor
`PyFFS`, product `USBMS`, revision `0000`, each zero-padded to its array
size — and any allocation length smaller than the full structure raises
IllegalRequest with Invalid Field in CDB. -/
theorem C4_inquiry (alloc : Nat) (h : alloc < sizeofSCSIResponseInquiry) :
    (∃ bs, onCommand luEmpty cbwInquiry36 none = .ok (some bs) ∧
      bs.length = 36 ∧
      bs.getD 0 999 = (SCSI_INQUIRY_PERIF_QUALIFIER_LOADED ||| SCSI_INQUIRY_PERIF_TYPE_DIRECT) ∧
      bs.getD 1 999 = SCSI_INQUIRY_HEADER_F1_RMB ∧
      (bs.drop 8).take 8 = padZeros 8 pyffsVendor ∧
      (bs.drop 16).take 16 = padZeros 16 usbmsProduct ∧
      (bs.drop 32).take 4 = revision0000) ∧
    onInquiry alloc = .error (massStorageIllegalRequestError SCSI_ASC_INVALID_FIELD_IN_CDB) := by
  constructor
  · exact ⟨[0, 0x80, 4, 2, 31, 0, 0, 0,
            0x50, 0x79, 0x46, 0x46, 0x53, 0, 0, 0,
            0x55, 0x53, 0x42, 0x4d, 0x53, 0, 0, 0, 0, 0, 0, 0, 0, 0, 0, 0,
            0x30, 0x30, 0x30, 0x30],
      by decide, by decide, by decide, by decide, by decide, by decide, by decide⟩
  · have h36 : alloc < 36 := h
    unfold onInquiry
    rw [if_neg (by simp only [sizeofSCSIResponseInquiry]; omega)]

/-- Claim C4 witness: the amended theorem at allocation length 0. -/
theorem C4_inquiry_witness :
    onInquiry 0 = .error (massStorageIllegalRequestError SCSI_ASC_INVALID_FIELD_IN_CDB) :=
  (C4_inquiry 0 (by decide)).2

/-- Claim C5: every multi-byte field of the SCSI parameter blocks and SCSI
response structures sits in the encoding as its big-endian bytes, while
every multi-byte field of the CBW and CSW records sits as its little-endian
bytes (and the two byte orders genuinely differ). -/
theorem C5_endianness :
    (∀ p : SCSIParametersInquiry, (p.encode.drop 2).take 2 = encBE16 p.allocation_length) ∧
    (∀ p : SCSIParametersReadCapacity10, (p.encode.drop 1).take 4 = encBE32 p.lba) ∧
    (∀ p : SCSIParametersIO10, (p.encode.drop 1).take 4 = encBE32 p.lba ∧
      (p.encode.drop 6).take 2 = encBE16 p.transfer_length) ∧
    (∀ p : SCSIParametersVerify10, (p.encode.drop 1).take 4 = encBE32 p.lba ∧
      (p.encode.drop 6).take 2 = encBE16 p.verification_length) ∧
    (∀ p : SCSIParametersModeSense10, (p.encode.drop 6).take 2 = encBE16 p.allocation_length) ∧
    (∀ h : SCSIRequestSenseHeader, (h.encode.drop 3).take 4 = encBE32 h.information) ∧
    (∀ e : SCSIRequestSenseExt, e.encode.take 4 = encBE32 e.command_specific_information ∧
      (e.encode.drop 4).take 2 = encBE16 e.asc_ascq) ∧
    (∀ f : SCSIResponseInquiryFeatures, (f.encode.drop 1).take 2 = encBE16 f.flags) ∧
    (∀ h : SCSIResponseModeSense10Header, h.encode.take 2 = encBE16 h.mode_data_length ∧
      (h.encode.drop 6).take 2 = encBE16 h.block_descriptor_length) ∧
    (∀ c : CBW, c.encode.take 4 = encLE32 c.dCBWSignature ∧
      (c.encode.drop 4).take 4 = encLE32 c.dCBWTag ∧
      (c.encode.drop 8).take 4 = encLE32 c.dCBWDataTransferLength) ∧
    (∀ c : CSW, c.encode.take 4 = encLE32 c.dCSWSignature ∧
      (c.encode.drop 4).take 4 = encLE32 c.dCSWTag ∧
      (c.encode.drop 8).take 4 = encLE32 c.dCSWDataResidue) ∧
    encBE16 1 ≠ encLE16 1 ∧ encBE32 1 ≠ encLE32 1 :=
  ⟨fun _ => rfl, fun _ => rfl, fun _ => ⟨rfl, rfl⟩, fun _ => ⟨rfl, rfl⟩, fun _ => rfl,
   fun _ => rfl, fun _ => ⟨rfl, rfl⟩, fun _ => rfl, fun _ => ⟨rfl, rfl⟩,
   fun _ => ⟨rfl, rfl, rfl⟩, fun _ => ⟨rfl, rfl, rfl⟩, by decide, by decide⟩

/-- Claim C6: an OUT-endpoint packet received in the idle state whose CBW
signature is not `0x43425355` halts both bulk endpoints, emits no IN write
at all (in particular no CSW), and leaves the session state — including the
idle `receiving_length = 0` — exactly as it was. -/
theorem C6_bad_signature (st : MassStorageFunctionState) (bytes : List Nat)
    (hidle : st.receiving_length = 0)
    (hlen : sizeofCBW ≤ bytes.length)
    (hsig : (CBW.fromBytes bytes).dCBWSignature ≠ USBMS_CBW_MAGIC) :
    onOutEndpointComplete st bytes 0 = (st, haltBoth) ∧
    (onOutEndpointComplete st bytes 0).1.receiving_length = 0 := by
  have hmain : onOutEndpointComplete st bytes 0 = (st, haltBoth) := by
    unfold onOutEndpointComplete
    rw [if_neg (by norm_num), if_pos hidle, if_neg (Nat.not_lt.mpr hlen)]
    simp only
    rw [if_pos hsig]
  exact ⟨hmain, by rw [hmain]; exact hidle⟩

/-- Claim C6 witness: a CBW whose signature decodes to `0xdeadbeef` on a
fresh single-unit function. -/
theorem C6_bad_signature_witness :
    onOutEndpointComplete stFresh cbwBytesBadSignature 0 = (stFresh, haltBoth) ∧
    (onOutEndpointComplete stFresh cbwBytesBadSignature 0).1.receiving_length = 0 :=
  C6_bad_signature stFresh cbwBytesBadSignature rfl (by decide) (by decide)

/-- Claim C7: for every opcode present in `_PARSERS`, a CBW whose declared
CDB length minus the opcode byte differs from the size of that opcode's
parameter structure makes `onCommand` raise IllegalRequest, and it does so
for every choice of the parameter bytes (they are never consulted). -/
theorem C7_cdb_length_mismatch (lu : MassStorageLogicalUnit) (cbw : CBW)
    (d : Option (List Nat)) (parser : SCSIParser)
    (hp : SCSI_PARSERS.lookup cbw.CBWCB.command = some parser)
    (hsz : (sizeofParams parser : Int) ≠ (cbw.bCBWCBLength : Int) - 1) :
    onCommand lu cbw d = .error (massStorageIllegalRequestError SCSI_ASC_NONE) ∧
    ∀ ps : List Nat,
      onCommand lu
        { cbw with CBWCB := { command := cbw.CBWCB.command, parameters := ps } } d =
        .error (massStorageIllegalRequestError SCSI_ASC_NONE) := by
  constructor
  · unfold onCommand
    rw [hp]
    simp only [if_pos hsz]
  · intro ps
    unfold onCommand
    rw [show ({ cbw with CBWCB := { command := cbw.CBWCB.command, parameters := ps } } : CBW).CBWCB.command
        = cbw.CBWCB.command from rfl, hp]
    simp only [if_pos hsz]

/-- Claim C7 witness: Test Unit Ready (5-byte parameter block) declared
with CDB length 10. -/
theorem C7_cdb_length_mismatch_witness :
    onCommand luEmpty cbwTestUnitReadyBadLength none =
      .error (massStorageIllegalRequestError SCSI_ASC_NONE) :=
  (C7_cdb_length_mismatch luEmpty cbwTestUnitReadyBadLength none .void6
    (by decide) (by decide)).1

/-- Claim C8: an opcode absent from `_PARSERS` is never parseable —
regardless of its byte-range length class — and `onCommand` raises
IllegalRequest for it instead of crashing or silently succeeding. -/
theorem C8_unknown_opcode (lu : MassStorageLogicalUnit) (cbw : CBW)
    (d : Option (List Nat))
    (h : SCSI_PARSERS.lookup cbw.CBWCB.command = none) :
    cbw.CBWCB.parseable = false ∧
    onCommand lu cbw d = .error (massStorageIllegalRequestError SCSI_ASC_NONE) := by
  constructor
  · unfold SCSICommandBuffer.parseable
    rw [h]
    rfl
  · unfold onCommand
    rw [h]

/-- Claim C8 witness: opcode 0x08 (READ(6)) is not in the table although
its byte-range length class is the nonzero 6. -/
theorem C8_unknown_opcode_witness :
    cbwRead6.CBWCB.cdb_size = 6 ∧
    (cbwRead6.CBWCB.parseable = false ∧
      onCommand luEmpty cbwRead6 none =
        .error (massStorageIllegalRequestError SCSI_ASC_NONE)) :=
  ⟨by decide, C8_unknown_opcode luEmpty cbwRead6 none (by decide)⟩

/-- Claim C9: `CSW.simple(tag, status, residue)` fixes the signature to
`0x53425355`, and decoding its 13-byte little-endian encoding returns the
record unchanged for every field-representable tag, status and residue. -/
theorem C9_csw_roundtrip (tag status residue : Nat)
    (ht : tag < 4294967296) (hr : residue < 4294967296) (hs : status < 256) :
    CSW.fromBytes (CSW.simple tag status residue).encode = CSW.simple tag status residue ∧
    (CSW.simple tag status residue).dCSWSignature = USBMS_CSW_MAGIC := by
  refine ⟨?_, rfl⟩
  have henc : (CSW.simple tag status residue).encode =
      [0x55, 0x53, 0x42, 0x53,
       tag % 256, tag / 256 % 256, tag / 65536 % 256, tag / 16777216 % 256,
       residue % 256, residue / 256 % 256, residue / 65536 % 256, residue / 16777216 % 256,
       status % 256] := by
    simp only [CSW.encode, CSW.simple]
    norm_num [encLE32, USBMS_CSW_MAGIC]
  rw [henc]
  simp only [CSW.fromBytes, decLE32]
  norm_num [CSW.simple, USBMS_CSW_MAGIC, CSW.mk.injEq]
  refine ⟨?_, ?_, ?_⟩ <;> omega

/-- Claim C9 witness: a concrete round trip. -/
theorem C9_csw_roundtrip_witness :
    CSW.fromBytes (CSW.simple 0x12345678 1 512).encode = CSW.simple 0x12345678 1 512 ∧
    (CSW.simple 0x12345678 1 512).dCSWSignature = USBMS_CSW_MAGIC :=
  C9_csw_roundtrip 0x12345678 1 512 (by decide) (by decide) (by decide)

/-- Claim C10: constructing a `MassStorageFunction` with an empty
logical-unit sequence raises `ValueError`; every successfully constructed
instance owns at least one logical unit, and its `getMaxLUN` is a
non-negative integer. -/
theorem C10_constructor_guard :
    mkMassStorageFunction [] = .error .valueError ∧
    ∀ (units : List MassStorageLogicalUnit) (st : MassStorageFunctionState),
      mkMassStorageFunction units = .ok st →
      1 ≤ st.logical_units.length ∧ 0 ≤ getMaxLUN st := by
  constructor
  · rfl
  · intro units st h
    unfold mkMassStorageFunction at h
    by_cases hl : units.length = 0
    · rw [if_pos hl] at h
      cases h
    · rw [if_neg hl] at h
      cases h
      constructor
      · show 1 ≤ units.length
        omega
      · show 0 ≤ (units.length : Int) - 1
        omega

/-- Claim C10 witness: a single-unit construction. -/
theorem C10_constructor_guard_witness :
    1 ≤ stFresh.logical_units.length ∧ 0 ≤ getMaxLUN stFresh :=
  C10_constructor_guard.2 [luEmpty] stFresh rfl

end Dfusim
